import Mathlib

/-!
Shallow embedding of the causal mapping and confidence-scoring core of the
opencausenx repository (src/domain/causal-mapping/mapper.ts, rules.ts,
assumptions.ts and src/domain/models/Event.ts, BusinessModel.ts, Insight.ts).

Numbers: the TypeScript code computes on IEEE doubles; the embedding uses ℚ,
which represents every constant appearing in the source (0.95, 0.3, 0.05, …)
exactly.  Times are milliseconds since the epoch, as returned by
`Date.getTime()` / `Date.now()`; the ambient clock reading `Date.now()` is
made an explicit parameter `now : ℚ` of every function that consults it.
Strings are Lean `String`s; `toLowerCase` is modelled on the ASCII range,
which covers every keyword the mapperscans for.  Fields of `Event` that the
mapping core never reads (affectedEntities, source, metadata, createdAt) are
omitted from the record.
-/

/-- EventType enum from src/domain/models/types.ts (nine categories). -/
inductive EventType where
  | REGULATION_CHANGE
  | ECONOMIC_INDICATOR
  | LABOR_MARKET
  | GEOPOLITICAL
  | INFRASTRUCTURE
  | MARKET_SHIFT
  | TECHNOLOGY
  | CURRENCY
  | DISASTER
deriving DecidableEq, Inhabited, Repr

/-- BusinessDriverType enum from types.ts. -/
inductive BusinessDriverType where
  | SUBSCRIPTION_REVENUE
  | USAGE_REVENUE
  | SERVICES_REVENUE
  | LABOR_COSTS
  | INFRASTRUCTURE_COSTS
  | SALES_MARKETING
  | R_AND_D
  | ADMINISTRATIVE
deriving DecidableEq, Inhabited, Repr

/-- Rendering of a BusinessDriverType as the string produced by JS template
interpolation of the enum value. -/
def BusinessDriverType.str : BusinessDriverType → String
  | .SUBSCRIPTION_REVENUE => "SUBSCRIPTION_REVENUE"
  | .USAGE_REVENUE => "USAGE_REVENUE"
  | .SERVICES_REVENUE => "SERVICES_REVENUE"
  | .LABOR_COSTS => "LABOR_COSTS"
  | .INFRASTRUCTURE_COSTS => "INFRASTRUCTURE_COSTS"
  | .SALES_MARKETING => "SALES_MARKETING"
  | .R_AND_D => "R_AND_D"
  | .ADMINISTRATIVE => "ADMINISTRATIVE"

/-- SensitivityFactor enum from types.ts. -/
inductive SensitivityFactor where
  | LABOR
  | INFRASTRUCTURE
  | FX
  | REGULATION
  | MARKET_DEMAND
deriving DecidableEq, Inhabited, Repr

/-- ImpactDirection enum from types.ts. -/
inductive ImpactDirection where
  | INCREASE
  | DECREASE
  | NEUTRAL
deriving DecidableEq, Inhabited, Repr

/-- ImpactMagnitude enum from types.ts. -/
inductive ImpactMagnitude where
  | LOW
  | MEDIUM
  | HIGH
deriving DecidableEq, Inhabited, Repr

/-- TimeHorizon enum from types.ts. -/
inductive TimeHorizon where
  | SHORT
  | MEDIUM
  | LONG
deriving DecidableEq, Inhabited, Repr

/-- CausalStep record from types.ts. -/
structure CausalStep where
  step : Nat
  description : String
  mechanism : String
  confidence : ℚ
deriving DecidableEq, Inhabited, Repr

/-- Assumption record from types.ts; `impact` holds one of
"HIGH" / "MEDIUM" / "LOW" as in the source literal type. -/
structure Assumption where
  id : String
  description : String
  impact : String
  source : String
deriving DecidableEq, Inhabited, Repr

/-- Event domain model, src/domain/models/Event.ts, restricted to the fields
the mapping core reads.  `timestamp` is `Date.getTime()` in milliseconds. -/
structure Event where
  id : String
  eventType : EventType
  summary : String
  region : String
  timestamp : ℚ
  confidenceScore : ℚ
deriving DecidableEq, Inhabited, Repr

/-- WeightedDriver record from types.ts. -/
structure WeightedDriver where
  driver : BusinessDriverType
  weight : ℚ
deriving DecidableEq, Inhabited, Repr

/-- SensitivityConfig record from types.ts. -/
structure SensitivityConfig where
  factor : SensitivityFactor
  sensitivity : ℚ
deriving DecidableEq, Inhabited, Repr

/-- BusinessModel domain model, src/domain/models/BusinessModel.ts,
restricted to the fields the mapping core reads. -/
structure BusinessModel where
  id : String
  revenueDrivers : List WeightedDriver
  costDrivers : List WeightedDriver
  sensitivities : List SensitivityConfig
  operatingRegions : List String
  customerRegions : List String
deriving DecidableEq, Inhabited, Repr

/-- Milliseconds in a day (`1000 * 60 * 60 * 24`). -/
def msPerDay : ℚ := 1000 * 60 * 60 * 24

/-- `Event.isRelevantToRegion`: `regions.includes(this.region) || this.region === 'GLOBAL'`. -/
def Event.isRelevantToRegion (e : Event) (regions : List String) : Bool :=
  decide (e.region ∈ regions) || decide (e.region = "GLOBAL")

/-- Event age in (fractional) days: `(Date.now() - this.timestamp.getTime()) / (1000*60*60*24)`. -/
def Event.ageRawDays (e : Event) (now : ℚ) : ℚ :=
  (now - e.timestamp) / msPerDay

/-- `Event.isRecent(days)`: `ageInDays <= days` on the un-floored age. -/
def Event.isRecent (e : Event) (now : ℚ) (days : ℚ) : Bool :=
  decide (e.ageRawDays now ≤ days)

/-- `Event.getAgeInDays()`: `Math.floor` of the fractional age. -/
def Event.getAgeInDays (e : Event) (now : ℚ) : ℤ :=
  Rat.floor (e.ageRawDays now)

/-- `BusinessModel.getDriverWeight`: search `[...revenueDrivers, ...costDrivers]`
for the driver; `found?.weight || 0` (a stored weight of 0 and a missing
driver both yield 0, so the JS falsy fallback collapses to the match). -/
def BusinessModel.getDriverWeight (b : BusinessModel) (driver : BusinessDriverType) : ℚ :=
  match (b.revenueDrivers ++ b.costDrivers).find? (fun d => d.driver = driver) with
  | some d => d.weight
  | none => 0

/-- `BusinessModel.getSensitivity`: `found?.sensitivity || 0.5`.  JS `||`
tests truthiness, so a configured sensitivity of exactly 0 is falsy and the
default 0.5 is returned for it as well as for a missing factor. -/
def BusinessModel.getSensitivity (b : BusinessModel) (factor : SensitivityFactor) : ℚ :=
  match b.sensitivities.find? (fun s => s.factor = factor) with
  | some s => if s.sensitivity = 0 then 0.5 else s.sensitivity
  | none => 0.5

/-- `BusinessModel.hasRegionalExposure`. -/
def BusinessModel.hasRegionalExposure (b : BusinessModel) (region : String) : Bool :=
  decide (region ∈ b.operatingRegions) || decide (region ∈ b.customerRegions) ||
    decide (region = "GLOBAL")

/-- Insertion into a JS `Set` materialised as a list: keeps first occurrence,
appends unseen elements in insertion order. -/
def insertUnique (seen : List String) (a : String) : List String :=
  if a ∈ seen then seen else seen ++ [a]

/-- `BusinessModel.getAllRelevantRegions`:
`[...new Set([...operatingRegions, ...customerRegions])]`. -/
def BusinessModel.getAllRelevantRegions (b : BusinessModel) : List String :=
  (b.operatingRegions ++ b.customerRegions).foldl insertUnique []

/-- CausalRule record, src/domain/causal-mapping/rules.ts. -/
structure CausalRule where
  eventType : EventType
  affectedDrivers : List BusinessDriverType
  sensitivityFactor : SensitivityFactor
  defaultDirection : ImpactDirection
  timeHorizon : TimeHorizon
  getCausalPath : String → String → List CausalStep

/-- The static rule catalog `CAUSAL_RULES`, rules.ts lines 36-334: one rule
per event category, authored step templates with constant confidences; the
template interpolates the event summary into step 1's mechanism and the
business context into step 3's mechanism. -/
def CAUSAL_RULES : EventType → CausalRule
  | .LABOR_MARKET =>
    { eventType := .LABOR_MARKET
      affectedDrivers := [.LABOR_COSTS, .R_AND_D, .SALES_MARKETING]
      sensitivityFactor := .LABOR
      defaultDirection := .INCREASE
      timeHorizon := .MEDIUM
      getCausalPath := fun event context =>
        [ { step := 1, description := "Labor market event occurs",
            mechanism := event, confidence := 0.9 },
          { step := 2, description := "Wage pressure affects hiring and retention costs",
            mechanism := "Competitive labor market forces businesses to raise wages to attract and retain talent.",
            confidence := 0.85 },
          { step := 3, description := "Increased labor costs flow through to P&L",
            mechanism := "Labor costs represent a significant portion of expenses. " ++ context,
            confidence := 0.8 } ] }
  | .INFRASTRUCTURE =>
    { eventType := .INFRASTRUCTURE
      affectedDrivers := [.INFRASTRUCTURE_COSTS]
      sensitivityFactor := .INFRASTRUCTURE
      defaultDirection := .INCREASE
      timeHorizon := .SHORT
      getCausalPath := fun event context =>
        [ { step := 1, description := "Infrastructure event occurs",
            mechanism := event, confidence := 0.9 },
          { step := 2, description := "Cloud or infrastructure pricing changes",
            mechanism := "Cloud providers adjust pricing based on energy costs, capacity, and market conditions.",
            confidence := 0.85 },
          { step := 3, description := "Changed costs flow through to next billing cycle",
            mechanism := "SaaS companies use cloud infrastructure on a pay-as-you-go basis. " ++ context,
            confidence := 0.9 } ] }
  | .REGULATION_CHANGE =>
    { eventType := .REGULATION_CHANGE
      affectedDrivers := [.LABOR_COSTS, .INFRASTRUCTURE_COSTS, .ADMINISTRATIVE]
      sensitivityFactor := .REGULATION
      defaultDirection := .INCREASE
      timeHorizon := .MEDIUM
      getCausalPath := fun event context =>
        [ { step := 1, description := "Regulatory change announced or enacted",
            mechanism := event, confidence := 0.9 },
          { step := 2, description := "Business must invest in compliance",
            mechanism := "New regulations require legal review, technical implementation, process changes, and ongoing monitoring.",
            confidence := 0.8 },
          { step := 3, description := "Compliance costs increase operating expenses",
            mechanism := "Regulatory compliance adds permanent overhead. " ++ context,
            confidence := 0.75 } ] }
  | .ECONOMIC_INDICATOR =>
    { eventType := .ECONOMIC_INDICATOR
      affectedDrivers := [.SUBSCRIPTION_REVENUE, .LABOR_COSTS, .INFRASTRUCTURE_COSTS]
      sensitivityFactor := .MARKET_DEMAND
      defaultDirection := .NEUTRAL
      timeHorizon := .MEDIUM
      getCausalPath := fun event context =>
        [ { step := 1, description := "Economic indicator changes",
            mechanism := event, confidence := 0.95 },
          { step := 2, description := "Affects customer spending and business investment",
            mechanism := "Macroeconomic conditions influence customer budgets and willingness to spend on software.",
            confidence := 0.7 },
          { step := 3, description := "Revenue and cost pressures adjust",
            mechanism := "Economic conditions affect both demand (revenue) and input costs. " ++ context,
            confidence := 0.65 } ] }
  | .CURRENCY =>
    { eventType := .CURRENCY
      affectedDrivers := [.SUBSCRIPTION_REVENUE, .LABOR_COSTS, .INFRASTRUCTURE_COSTS]
      sensitivityFactor := .FX
      defaultDirection := .NEUTRAL
      timeHorizon := .SHORT
      getCausalPath := fun event context =>
        [ { step := 1, description := "Foreign exchange rate changes",
            mechanism := event, confidence := 0.95 },
          { step := 2, description := "Translation effects on international operations",
            mechanism := "Foreign currency revenue and costs are translated to reporting currency at new rates.",
            confidence := 0.9 },
          { step := 3, description := "Net FX impact on financial results",
            mechanism := "FX affects both revenue (international customers) and costs (international operations). " ++ context,
            confidence := 0.85 } ] }
  | .GEOPOLITICAL =>
    { eventType := .GEOPOLITICAL
      affectedDrivers := [.SUBSCRIPTION_REVENUE, .SALES_MARKETING]
      sensitivityFactor := .MARKET_DEMAND
      defaultDirection := .DECREASE
      timeHorizon := .SHORT
      getCausalPath := fun event context =>
        [ { step := 1, description := "Geopolitical event creates uncertainty",
            mechanism := event, confidence := 0.8 },
          { step := 2, description := "Market uncertainty reduces customer spending",
            mechanism := "Businesses delay purchases and reduce budgets during periods of geopolitical instability.",
            confidence := 0.6 },
          { step := 3, description := "Revenue growth slows",
            mechanism := "Reduced customer acquisition and potential churn. " ++ context,
            confidence := 0.5 } ] }
  | .MARKET_SHIFT =>
    { eventType := .MARKET_SHIFT
      affectedDrivers := [.SUBSCRIPTION_REVENUE, .SALES_MARKETING]
      sensitivityFactor := .MARKET_DEMAND
      defaultDirection := .NEUTRAL
      timeHorizon := .MEDIUM
      getCausalPath := fun event context =>
        [ { step := 1, description := "Market dynamics change",
            mechanism := event, confidence := 0.7 },
          { step := 2, description := "Customer demand patterns shift",
            mechanism := "Market shifts affect customer needs, competitive landscape, and pricing power.",
            confidence := 0.6 },
          { step := 3, description := "Revenue and customer acquisition costs affected",
            mechanism := "Changed market conditions require business adaptation. " ++ context,
            confidence := 0.55 } ] }
  | .TECHNOLOGY =>
    { eventType := .TECHNOLOGY
      affectedDrivers := [.R_AND_D, .INFRASTRUCTURE_COSTS]
      sensitivityFactor := .INFRASTRUCTURE
      defaultDirection := .NEUTRAL
      timeHorizon := .LONG
      getCausalPath := fun event context =>
        [ { step := 1, description := "Technology change occurs",
            mechanism := event, confidence := 0.7 },
          { step := 2, description := "May require technology stack adaptation",
            mechanism := "New technologies can create opportunities (efficiency) or threats (competitive pressure).",
            confidence := 0.5 },
          { step := 3, description := "R&D and infrastructure investments adjust",
            mechanism := "Technology evolution affects development priorities and infrastructure choices. " ++ context,
            confidence := 0.45 } ] }
  | .DISASTER =>
    { eventType := .DISASTER
      affectedDrivers := [.INFRASTRUCTURE_COSTS, .SUBSCRIPTION_REVENUE]
      sensitivityFactor := .MARKET_DEMAND
      defaultDirection := .NEUTRAL
      timeHorizon := .SHORT
      getCausalPath := fun event context =>
        [ { step := 1, description := "Disaster event occurs",
            mechanism := event, confidence := 0.9 },
          { step := 2, description := "Regional disruption affects operations",
            mechanism := "Natural disasters disrupt infrastructure, workforce, and customer operations in affected regions.",
            confidence := 0.7 },
          { step := 3, description := "Business continuity and recovery costs",
            mechanism := "Impact depends on regional exposure. " ++ context,
            confidence := 0.6 } ] }

/-- `getCausalRule(eventType)`: catalog lookup, rules.ts lines 340-342. -/
def getCausalRule (eventType : EventType) : CausalRule :=
  CAUSAL_RULES eventType

/-- `isHighConfidenceRule(eventType)`, rules.ts lines 348-357. -/
def isHighConfidenceRule (eventType : EventType) : Bool :=
  decide (eventType ∈
    [EventType.LABOR_MARKET, EventType.INFRASTRUCTURE,
     EventType.ECONOMIC_INDICATOR, EventType.CURRENCY])

/-- CORE_ASSUMPTIONS entry LABOR_WAGES_AFFECT_COSTS, assumptions.ts. -/
def LABOR_WAGES_AFFECT_COSTS : Assumption :=
  { id := "LABOR_WAGES_AFFECT_COSTS"
    description := "Wage increases in the labor market directly increase labor costs for businesses."
    impact := "HIGH"
    source := "Economic principle: labor as a cost component" }

/-- CORE_ASSUMPTIONS entry LABOR_COSTS_PROPORTIONAL. -/
def LABOR_COSTS_PROPORTIONAL : Assumption :=
  { id := "LABOR_COSTS_PROPORTIONAL"
    description := "Labor cost changes are roughly proportional to the weight of labor in total costs."
    impact := "HIGH"
    source := "Basic accounting: cost structure drives impact magnitude" }

/-- CORE_ASSUMPTIONS entry LABOR_CHANGES_GRADUAL. -/
def LABOR_CHANGES_GRADUAL : Assumption :=
  { id := "LABOR_CHANGES_GRADUAL"
    description := "Labor market changes take 3-12 months to fully impact business costs."
    impact := "MEDIUM"
    source := "Typical employment contract and hiring cycles" }

/-- CORE_ASSUMPTIONS entry INFRASTRUCTURE_COSTS_VARIABLE. -/
def INFRASTRUCTURE_COSTS_VARIABLE : Assumption :=
  { id := "INFRASTRUCTURE_COSTS_VARIABLE"
    description := "Cloud and infrastructure costs are variable and adjust with usage and pricing."
    impact := "HIGH"
    source := "SaaS industry standard: pay-as-you-go pricing models" }

/-- CORE_ASSUMPTIONS entry INFRASTRUCTURE_IMPACT_IMMEDIATE. -/
def INFRASTRUCTURE_IMPACT_IMMEDIATE : Assumption :=
  { id := "INFRASTRUCTURE_IMPACT_IMMEDIATE"
    description := "Infrastructure price changes affect costs within 0-3 months."
    impact := "MEDIUM"
    source := "Cloud provider pricing updates apply to next billing cycle" }

/-- CORE_ASSUMPTIONS entry REGULATION_REQUIRES_COMPLIANCE. -/
def REGULATION_REQUIRES_COMPLIANCE : Assumption :=
  { id := "REGULATION_REQUIRES_COMPLIANCE"
    description := "New regulations require businesses to invest in compliance measures."
    impact := "HIGH"
    source := "Legal requirement: non-compliance risks fines and operations" }

/-- CORE_ASSUMPTIONS entry REGULATION_MEDIUM_TERM. -/
def REGULATION_MEDIUM_TERM : Assumption :=
  { id := "REGULATION_MEDIUM_TERM"
    description := "Regulatory impacts typically materialize over 3-12 months."
    impact := "MEDIUM"
    source := "Typical grace periods and implementation timelines" }

/-- CORE_ASSUMPTIONS entry GDP_AFFECTS_DEMAND. -/
def GDP_AFFECTS_DEMAND : Assumption :=
  { id := "GDP_AFFECTS_DEMAND"
    description := "GDP growth/decline affects customer spending and demand for services."
    impact := "HIGH"
    source := "Macroeconomic principle: GDP correlates with business activity" }

/-- CORE_ASSUMPTIONS entry INFLATION_AFFECTS_COSTS. -/
def INFLATION_AFFECTS_COSTS : Assumption :=
  { id := "INFLATION_AFFECTS_COSTS"
    description := "Inflation increases costs across all categories (labor, infrastructure, etc.)."
    impact := "HIGH"
    source := "Monetary principle: purchasing power affects all prices" }

/-- CORE_ASSUMPTIONS entry INTEREST_RATES_AFFECT_GROWTH. -/
def INTEREST_RATES_AFFECT_GROWTH : Assumption :=
  { id := "INTEREST_RATES_AFFECT_GROWTH"
    description := "Higher interest rates reduce customer spending and business investment."
    impact := "MEDIUM"
    source := "Monetary policy: cost of capital affects growth" }

/-- CORE_ASSUMPTIONS entry FX_AFFECTS_INTERNATIONAL. -/
def FX_AFFECTS_INTERNATIONAL : Assumption :=
  { id := "FX_AFFECTS_INTERNATIONAL"
    description := "Currency changes only affect businesses with international operations or customers."
    impact := "HIGH"
    source := "Basic FX exposure: requires cross-border transactions" }

/-- CORE_ASSUMPTIONS entry FX_REVENUE_AND_COSTS. -/
def FX_REVENUE_AND_COSTS : Assumption :=
  { id := "FX_REVENUE_AND_COSTS"
    description := "Foreign exchange affects both revenue (if international customers) and costs (if international operations)."
    impact := "MEDIUM"
    source := "Accounting standard: FX translation affects both sides of P&L" }

/-- CORE_ASSUMPTIONS entry GEOPOLITICAL_CREATES_UNCERTAINTY. -/
def GEOPOLITICAL_CREATES_UNCERTAINTY : Assumption :=
  { id := "GEOPOLITICAL_CREATES_UNCERTAINTY"
    description := "Geopolitical events create market uncertainty and reduce customer spending."
    impact := "MEDIUM"
    source := "Behavioral economics: uncertainty reduces risk-taking" }

/-- CORE_ASSUMPTIONS entry DISASTER_REGIONAL_IMPACT. -/
def DISASTER_REGIONAL_IMPACT : Assumption :=
  { id := "DISASTER_REGIONAL_IMPACT"
    description := "Natural disasters primarily affect businesses in or dependent on the affected region."
    impact := "HIGH"
    source := "Geographic constraint: physical disruption is localized" }

/-- `getAssumptionsForEventType`, assumptions.ts lines 131-160: the per-type
key lists resolved against CORE_ASSUMPTIONS (every key exists, so the
`.filter(Boolean)` of the source drops nothing). -/
def getAssumptionsForEventType : EventType → List Assumption
  | .LABOR_MARKET =>
    [LABOR_WAGES_AFFECT_COSTS, LABOR_COSTS_PROPORTIONAL, LABOR_CHANGES_GRADUAL]
  | .INFRASTRUCTURE =>
    [INFRASTRUCTURE_COSTS_VARIABLE, INFRASTRUCTURE_IMPACT_IMMEDIATE]
  | .REGULATION_CHANGE =>
    [REGULATION_REQUIRES_COMPLIANCE, REGULATION_MEDIUM_TERM]
  | .ECONOMIC_INDICATOR =>
    [GDP_AFFECTS_DEMAND, INFLATION_AFFECTS_COSTS, INTEREST_RATES_AFFECT_GROWTH]
  | .CURRENCY => [FX_AFFECTS_INTERNATIONAL, FX_REVENUE_AND_COSTS]
  | .GEOPOLITICAL => [GEOPOLITICAL_CREATES_UNCERTAINTY]
  | .DISASTER => [DISASTER_REGIONAL_IMPACT]
  | .MARKET_SHIFT => [GDP_AFFECTS_DEMAND]
  | .TECHNOLOGY => []

/-- The business-context flags passed to assumption validation. -/
structure BusinessContextFlags where
  hasInternationalOperations : Bool
  hasInternationalCustomers : Bool
  operatesInRegion : Bool
deriving DecidableEq, Inhabited

/-- `validateAssumptionsForBusiness`, assumptions.ts lines 203-240: walks the
assumption list and collects warnings; `valid` is always true.  The two `if`s
of the loop body test distinct ids, so at most one warning per assumption. -/
def validateAssumptionsForBusiness (assumptions : List Assumption)
    (businessContext : BusinessContextFlags) : Bool × List String :=
  let warnings := assumptions.filterMap (fun assumption =>
    if assumption.id = "FX_AFFECTS_INTERNATIONAL" ∧
        businessContext.hasInternationalOperations = false ∧
        businessContext.hasInternationalCustomers = false then
      some "FX impact may be minimal: business operates only domestically."
    else if assumption.id = "DISASTER_REGIONAL_IMPACT" ∧
        businessContext.operatesInRegion = false then
      some "Regional event may not affect business: no presence in affected region."
    else none)
  (true, warnings)

/-- CausalMapping result record, mapper.ts lines 25-38. -/
structure CausalMapping where
  event : Event
  businessModel : BusinessModel
  affectedDrivers : List BusinessDriverType
  impactDirection : ImpactDirection
  impactMagnitude : ImpactMagnitude
  timeHorizon : TimeHorizon
  causalPath : List CausalStep
  assumptions : List Assumption
  confidenceScore : ℚ
  confidenceRationale : String
  isRelevant : Bool
  relevanceReason : String
deriving DecidableEq, Inhabited

/-- `checkRelevance`, mapper.ts lines 138-170: geography, then age, then
source confidence, short-circuiting on the first failing check. -/
def checkRelevance (event : Event) (businessModel : BusinessModel) (now : ℚ) :
    Bool × String :=
  if event.isRelevantToRegion businessModel.getAllRelevantRegions = false then
    (false,
      "Event in " ++ event.region ++ " does not affect business operating in " ++
        String.intercalate ", " businessModel.getAllRelevantRegions)
  else if event.isRecent now 90 = false then
    (false,
      "Event is " ++ toString (event.getAgeInDays now) ++
        " days old and likely no longer relevant")
  else if event.confidenceScore < 0.3 then
    (false, "Event has very low confidence score and may not be reliable")
  else
    (true, "Event is geographically relevant, recent, and from reliable source")

/-- `Number.prototype.toFixed(0)`: the integer nearest to `q`, ties resolved
to the larger integer (ECMA-262 toFixed picks the larger n on a tie),
rendered in decimal. -/
def toFixed0 (q : ℚ) : String :=
  toString (Rat.floor (q + 1 / 2))

/-- `buildBusinessContext`, mapper.ts lines 176-191: one clause per affected
driver with positive weight, joined by ". " (the source's push-loop is the
same filterMap). -/
def buildBusinessContext (businessModel : BusinessModel)
    (affectedDrivers : List BusinessDriverType) : String :=
  let contextParts := affectedDrivers.filterMap (fun driver =>
    let weight := businessModel.getDriverWeight driver
    if weight > 0 then
      some (driver.str ++ " represents " ++ toFixed0 (weight * 100) ++
        "% of business structure")
    else none)
  String.intercalate ". " contextParts

/-- ASCII `String.toLowerCase()`. -/
def lowerAscii (s : String) : String :=
  String.mk (s.data.map Char.toLower)

/-- Whether `pat` is an initial segment of `l` (helper for JS
`String.prototype.includes`). -/
def leadsWith : List Char → List Char → Bool
  | [], _ => true
  | _ :: _, [] => false
  | a :: as, b :: bs => a = b ∧ leadsWith as bs

/-- Whether `pat` occurs contiguously inside `l` (JS
`String.prototype.includes` on the underlying character lists). -/
def occursIn (pat : List Char) : List Char → Bool
  | [] => leadsWith pat []
  | b :: bs => leadsWith pat (b :: bs) || occursIn pat bs

/-- JS `haystack.includes(pat)` on Lean strings. -/
def includesSub (haystack pat : String) : Bool :=
  occursIn pat.data haystack.data

/-- `determineImpactDirection`, mapper.ts lines 197-221: keyword scan over
the lower-cased summary, increase tokens first, then decrease tokens, then
the rule's default direction. -/
def determineImpactDirection (event : Event) (rule : CausalRule) : ImpactDirection :=
  let summary := lowerAscii event.summary
  if includesSub summary "increase" || includesSub summary "rise" ||
      includesSub summary "growth" || includesSub summary "up" then
    ImpactDirection.INCREASE
  else if includesSub summary "decrease" || includesSub summary "decline" ||
      includesSub summary "fall" || includesSub summary "down" then
    ImpactDirection.DECREASE
  else
    rule.defaultDirection

/-- `calculateImpactMagnitude`, mapper.ts lines 229-253. -/
def calculateImpactMagnitude (event : Event) (businessModel : BusinessModel)
    (affectedDrivers : List BusinessDriverType)
    (sensitivityFactor : SensitivityFactor) : ImpactMagnitude :=
  let totalWeight :=
    affectedDrivers.foldl (fun acc driver => acc + businessModel.getDriverWeight driver) 0
  let sensitivity := businessModel.getSensitivity sensitivityFactor
  let rawMagnitude := totalWeight * sensitivity * event.confidenceScore
  if rawMagnitude > 0.05 then ImpactMagnitude.HIGH
  else if rawMagnitude > 0.02 then ImpactMagnitude.MEDIUM
  else ImpactMagnitude.LOW

/-- `calculateConfidence`, mapper.ts lines 259-291: sequential multiplication
of event confidence, causal-path product, rule-quality factor, assumption
penalty and sensitivity bonus, then clamp to [0,1]. -/
def calculateConfidence (event : Event) (causalPath : List CausalStep)
    (businessModel : BusinessModel) (sensitivityFactor : SensitivityFactor)
    (assumptionCount : Nat) : ℚ :=
  let confidence := event.confidenceScore
  let pathConfidence := causalPath.foldl (fun acc step => acc * step.confidence) 1
  let confidence := confidence * pathConfidence
  let confidence :=
    if isHighConfidenceRule event.eventType then confidence * 1 else confidence * 0.9
  let assumptionPenalty : ℚ := (0.95 : ℚ) ^ assumptionCount
  let confidence := confidence * assumptionPenalty
  let sensitivity := businessModel.getSensitivity sensitivityFactor
  let confidence := if sensitivity > 0.7 then confidence * 1.1 else confidence
  max 0 (min 1 confidence)

/-- `generateConfidenceRationale`, mapper.ts lines 297-342. -/
def generateConfidenceRationale (event : Event) (causalPath : List CausalStep)
    (assumptions : List Assumption) (warnings : List String) : String :=
  let eventPart :=
    if event.confidenceScore ≥ 0.8 then "Event from highly reliable source"
    else if event.confidenceScore ≥ 0.6 then "Event from moderately reliable source"
    else "Event from uncertain or unverified source"
  let rulePart :=
    if isHighConfidenceRule event.eventType then "well-established causal relationship"
    else "uncertain or indirect causal relationship"
  let pathPart :=
    if causalPath.length ≤ 2 then "direct impact"
    else toString causalPath.length ++ "-step causal chain"
  let highImpact := (assumptions.filter (fun a => a.impact = "HIGH")).length
  let assumptionParts :=
    if assumptions.length > 0 ∧ highImpact > 0 then
      [toString highImpact ++ " critical assumption(s)"]
    else []
  let warningParts :=
    if warnings.length > 0 then [toString warnings.length ++ " caveat(s)"] else []
  String.intercalate "; "
    ([eventPart, rulePart, pathPart] ++ assumptionParts ++ warningParts) ++ "."

/-- `mapEventToBusiness`, mapper.ts lines 44-132.  The TypeScript signature
admits `null`, but both branches of the body return an object, modelled as
`some`; `now` is the `Date.now()` reading consulted by the relevance check. -/
def mapEventToBusiness (event : Event) (businessModel : BusinessModel) (now : ℚ) :
    Option CausalMapping :=
  let relevance := checkRelevance event businessModel now
  if relevance.1 = false then
    some
      { event := event
        businessModel := businessModel
        affectedDrivers := []
        impactDirection := .NEUTRAL
        impactMagnitude := .LOW
        timeHorizon := .SHORT
        causalPath := []
        assumptions := []
        confidenceScore := 0
        confidenceRationale := relevance.2
        isRelevant := false
        relevanceReason := relevance.2 }
  else
    let rule := getCausalRule event.eventType
    let businessContext := buildBusinessContext businessModel rule.affectedDrivers
    let causalPath := rule.getCausalPath event.summary businessContext
    let assumptions := getAssumptionsForEventType event.eventType
    let assumptionValidation := validateAssumptionsForBusiness assumptions
      { hasInternationalOperations := businessModel.operatingRegions.any
          (fun r => decide (r ≠ "US") || decide (businessModel.operatingRegions.length > 1))
        hasInternationalCustomers := businessModel.customerRegions.any
          (fun r => decide (r ≠ "US") || decide (businessModel.customerRegions.length > 1))
        operatesInRegion := businessModel.hasRegionalExposure event.region }
    let impactDirection := determineImpactDirection event rule
    let impactMagnitude := calculateImpactMagnitude event businessModel
      rule.affectedDrivers rule.sensitivityFactor
    let confidenceScore := calculateConfidence event causalPath businessModel
      rule.sensitivityFactor assumptions.length
    let confidenceRationale := generateConfidenceRationale event causalPath
      assumptions assumptionValidation.2
    some
      { event := event
        businessModel := businessModel
        affectedDrivers := rule.affectedDrivers
        impactDirection := impactDirection
        impactMagnitude := impactMagnitude
        timeHorizon := rule.timeHorizon
        causalPath := causalPath
        assumptions := assumptions
        confidenceScore := confidenceScore
        confidenceRationale := confidenceRationale
        isRelevant := true
        relevanceReason := relevance.2 }

/-- `getMagnitudeWeight`, mapper.ts lines 372-381. -/
def getMagnitudeWeight : ImpactMagnitude → ℚ
  | .HIGH => 3
  | .MEDIUM => 2
  | .LOW => 1

/-- The priority score the batch comparator computes for a mapping:
`confidenceScore * getMagnitudeWeight(impactMagnitude)` (inlined in the
source's comparator). -/
def priorityScore (m : CausalMapping) : ℚ :=
  m.confidenceScore * getMagnitudeWeight m.impactMagnitude

/-- Ordering relation realised by the comparator
`(a, b) => scoreB - scoreA`: `a` precedes `b` when its score is at least
`b`'s (descending). -/
def byPriority (a b : CausalMapping) : Prop :=
  priorityScore b ≤ priorityScore a

instance : DecidableRel byPriority :=
  fun a b => inferInstanceAs (Decidable (priorityScore b ≤ priorityScore a))

instance : IsTotal CausalMapping byPriority :=
  ⟨fun a b => le_total (priorityScore b) (priorityScore a)⟩

instance : IsTrans CausalMapping byPriority :=
  ⟨fun _ _ _ hab hbc => le_trans hbc hab⟩

/-- `batchMapEventsToBusiness`, mapper.ts lines 348-367: map each event,
keep the relevant mappings, sort by descending `confidence * magnitudeWeight`.
ECMAScript `Array.prototype.sort` is a stable sort, modelled by the stable
`List.insertionSort` under the same total preorder. -/
def batchMapEventsToBusiness (events : List Event) (businessModel : BusinessModel)
    (now : ℚ) : List CausalMapping :=
  let mappings := events.filterMap (fun event =>
    match mapEventToBusiness event businessModel now with
    | some mapping => if mapping.isRelevant then some mapping else none
    | none => none)
  List.insertionSort byPriority mappings

/-- `Insight.calculateOverallConfidence`, src/domain/models/Insight.ts: the
Insight-layer aggregation with the flat 0.5 penalty for an empty path. -/
def Insight.calculateOverallConfidence (eventConfidence : ℚ)
    (causalPath : List CausalStep) : ℚ :=
  if causalPath.length = 0 then eventConfidence * 0.5
  else
    eventConfidence * causalPath.foldl (fun acc step => acc * step.confidence) 1

/-- A concrete labor-market event used to instantiate the theorems: region
US, timestamp 0 (epoch), confidence 0.8. -/
def exEvent : Event :=
  { id := "event-1"
    eventType := .LABOR_MARKET
    summary := "Tech wages increase"
    region := "US"
    timestamp := 0
    confidenceScore := 0.8 }

/-- A concrete event whose region no sample business covers. -/
def exFarEvent : Event :=
  { id := "event-2"
    eventType := .CURRENCY
    summary := "Euro falls"
    region := "EU"
    timestamp := 0
    confidenceScore := 0.9 }

/-- A concrete SaaS-like business model operating in the US with labor
sensitivity 0.8. -/
def exBusiness : BusinessModel :=
  { id := "bm-1"
    revenueDrivers := [⟨.SUBSCRIPTION_REVENUE, 0.85⟩, ⟨.USAGE_REVENUE, 0.1⟩,
      ⟨.SERVICES_REVENUE, 0.05⟩]
    costDrivers := [⟨.LABOR_COSTS, 0.4⟩, ⟨.INFRASTRUCTURE_COSTS, 0.15⟩,
      ⟨.SALES_MARKETING, 0.25⟩, ⟨.R_AND_D, 0.15⟩, ⟨.ADMINISTRATIVE, 0.05⟩]
    sensitivities := [⟨.LABOR, 0.8⟩]
    operatingRegions := ["US"]
    customerRegions := ["US"]
    }

/-- A business model with no configured sensitivities. -/
def plainBusiness : BusinessModel :=
  { id := "bm-2"
    revenueDrivers := [⟨.SUBSCRIPTION_REVENUE, 1⟩]
    costDrivers := [⟨.LABOR_COSTS, 1⟩]
    sensitivities := []
    operatingRegions := ["US"]
    customerRegions := []
    }

/-- A business model whose labor sensitivity is configured as exactly 0. -/
def zeroSensBusiness : BusinessModel :=
  { id := "bm-3"
    revenueDrivers := [⟨.SUBSCRIPTION_REVENUE, 1⟩]
    costDrivers := [⟨.LABOR_COSTS, 1⟩]
    sensitivities := [⟨.LABOR, 0⟩]
    operatingRegions := ["US"]
    customerRegions := []
    }

/-- The mapping produced for `exEvent` against `exBusiness` at clock 0. -/
def exMapping : CausalMapping :=
  (mapEventToBusiness exEvent exBusiness 0).getD default

/-- The claim-side reading of "string `s` contains `tok` as a substring":
the character list of `s` splits around that of `tok`. -/
def containsTok (s tok : String) : Prop :=
  ∃ p q, s.data = p ++ tok.data ++ q

/-- The increase-indicating keywords of the direction scan. -/
def increaseTokens : List String := ["increase", "rise", "growth", "up"]

/-- The decrease-indicating keywords of the direction scan. -/
def decreaseTokens : List String := ["decrease", "decline", "fall", "down"]

/-- The claim-side magnitude formula, stated in the spec's words: sum of the
business's lever weights over the rule's affected levers, times the
business's sensitivity to the rule's sensitivity factor, times the event
confidence.  Compared against `calculateImpactMagnitude`'s bucketing. -/
def spec_rawMagnitude (e : Event) (b : BusinessModel) (rule : CausalRule) : ℚ :=
  (rule.affectedDrivers.map (fun d => b.getDriverWeight d)).sum *
    b.getSensitivity rule.sensitivityFactor * e.confidenceScore

theorem foldl_mul_confidence (l : List CausalStep) (a : ℚ) :
    l.foldl (fun acc step => acc * step.confidence) a =
      a * (l.map (fun s => s.confidence)).prod := by
  induction l generalizing a with
  | nil => simp
  | cons s t ih => simp [List.foldl_cons, ih, mul_assoc]

theorem foldl_add_weight (b : BusinessModel) (l : List BusinessDriverType) (a : ℚ) :
    l.foldl (fun acc d => acc + b.getDriverWeight d) a =
      a + (l.map (fun d => b.getDriverWeight d)).sum := by
  induction l generalizing a with
  | nil => simp
  | cons d t ih => simp [List.foldl_cons, ih, add_assoc]

theorem mem_insertUnique (acc : List String) (x a : String) :
    a ∈ insertUnique acc x ↔ a ∈ acc ∨ a = x := by
  unfold insertUnique
  by_cases hx : x ∈ acc
  · simp only [hx, if_true]
    constructor
    · exact fun h => Or.inl h
    · rintro (h | rfl)
      · exact h
      · exact hx
  · simp [hx]

theorem mem_foldl_insertUnique (l : List String) (acc : List String) (a : String) :
    a ∈ l.foldl insertUnique acc ↔ a ∈ acc ∨ a ∈ l := by
  induction l generalizing acc with
  | nil => simp
  | cons x xs ih =>
    rw [List.foldl_cons, ih, mem_insertUnique]
    simp [or_assoc]

theorem mem_getAllRelevantRegions (b : BusinessModel) (a : String) :
    a ∈ b.getAllRelevantRegions ↔ a ∈ b.operatingRegions ∨ a ∈ b.customerRegions := by
  unfold BusinessModel.getAllRelevantRegions
  rw [mem_foldl_insertUnique]
  simp

theorem leadsWith_iff (pat l : List Char) :
    leadsWith pat l = true ↔ ∃ q, l = pat ++ q := by
  induction pat generalizing l with
  | nil => simp [leadsWith]
  | cons a as ih =>
    cases l with
    | nil => simp [leadsWith]
    | cons b bs =>
      simp only [leadsWith, decide_eq_true_eq, ih, List.cons_append]
      constructor
      · rintro ⟨rfl, q, rfl⟩
        exact ⟨q, rfl⟩
      · rintro ⟨q, h⟩
        obtain ⟨h1, h2⟩ := List.cons_eq_cons.mp h
        exact ⟨h1.symm, q, h2⟩

theorem occursIn_iff (pat l : List Char) :
    occursIn pat l = true ↔ ∃ p q, l = p ++ pat ++ q := by
  induction l with
  | nil =>
    simp only [occursIn, leadsWith_iff]
    constructor
    · rintro ⟨q, h⟩
      exact ⟨[], q, by simpa using h⟩
    · rintro ⟨p, q, h⟩
      refine ⟨q, ?_⟩
      rcases List.append_eq_nil.mp (List.append_eq_nil.mp h.symm).1 with ⟨rfl, rfl⟩
      simpa using h
  | cons b bs ih =>
    simp only [occursIn, Bool.or_eq_true, leadsWith_iff, ih]
    constructor
    · rintro (⟨q, h⟩ | ⟨p, q, h⟩)
      · exact ⟨[], q, by simpa using h⟩
      · exact ⟨b :: p, q, by simp [h]⟩
    · rintro ⟨p, q, h⟩
      cases p with
      | nil =>
        exact Or.inl ⟨q, by simpa using h⟩
      | cons x p' =>
        rw [List.cons_append, List.cons_append] at h
        obtain ⟨rfl, h'⟩ := List.cons_eq_cons.mp h
        exact Or.inr ⟨p', q, by simpa using h'⟩

theorem includesSub_iff (haystack pat : String) :
    includesSub haystack pat = true ↔ containsTok haystack pat := by
  unfold includesSub containsTok
  exact occursIn_iff pat.data haystack.data

theorem calculateConfidence_eq (e : Event) (cp : List CausalStep) (b : BusinessModel)
    (sf : SensitivityFactor) (n : Nat) :
    calculateConfidence e cp b sf n =
      max 0 (min 1 (e.confidenceScore * (cp.map (fun s => s.confidence)).prod *
        (if isHighConfidenceRule e.eventType then (1 : ℚ) else 0.9) *
        (0.95 : ℚ) ^ n *
        (if b.getSensitivity sf > (0.7 : ℚ) then (1.1 : ℚ) else 1))) := by
  by_cases h1 : isHighConfidenceRule e.eventType = true <;>
  by_cases h2 : b.getSensitivity sf > (0.7 : ℚ) <;>
  simp only [calculateConfidence, foldl_mul_confidence, h1, h2, if_true, if_false,
    one_mul, Bool.false_eq_true, if_neg, Bool.not_eq_true] <;>
  ring_nf

theorem clamp01_bounds (x : ℚ) : 0 ≤ max 0 (min 1 x) ∧ max 0 (min 1 x) ≤ 1 :=
  ⟨le_max_left 0 _, max_le (by norm_num) (min_le_left 1 x)⟩

theorem checkRelevance_clock_congr (e : Event) (b : BusinessModel) (t₁ t₂ : ℚ)
    (hrec : e.isRecent t₁ 90 = e.isRecent t₂ 90)
    (hage : e.getAgeInDays t₁ = e.getAgeInDays t₂) :
    checkRelevance e b t₁ = checkRelevance e b t₂ := by
  unfold checkRelevance
  rw [hrec, hage]

theorem batch_filterMap_eq (events : List Event) (b : BusinessModel) (t : ℚ) :
    (events.filterMap (fun event =>
      match mapEventToBusiness event b t with
      | some mapping => if mapping.isRelevant then some mapping else none
      | none => none)) =
    ((events.filterMap (fun e => mapEventToBusiness e b t)).filter
      (fun m => m.isRelevant)) := by
  induction events with
  | nil => rfl
  | cons e es ih =>
    rw [List.filterMap_cons, List.filterMap_cons]
    cases h : mapEventToBusiness e b t with
    | none => simpa [h] using ih
    | some m =>
      by_cases hr : m.isRelevant <;> simp [h, hr, List.filter_cons, ih]

theorem isRelevantToRegion_iff (e : Event) (b : BusinessModel) :
    e.isRelevantToRegion b.getAllRelevantRegions = true ↔
      (e.region = "GLOBAL" ∨ e.region ∈ b.operatingRegions ∨ e.region ∈ b.customerRegions) := by
  simp only [Event.isRelevantToRegion, Bool.or_eq_true, decide_eq_true_eq,
    mem_getAllRelevantRegions]
  tauto

theorem isRecent_iff (e : Event) (t : ℚ) :
    e.isRecent t 90 = true ↔ t - e.timestamp ≤ 90 * msPerDay := by
  unfold Event.isRecent Event.ageRawDays
  rw [decide_eq_true_eq, div_le_iff₀ (by norm_num [msPerDay] : (0 : ℚ) < msPerDay)]

theorem checkRelevance_fst_eq (e : Event) (b : BusinessModel) (t : ℚ) :
    (checkRelevance e b t).1 =
      (e.isRelevantToRegion b.getAllRelevantRegions && e.isRecent t 90 &&
        !decide (e.confidenceScore < (0.3 : ℚ))) := by
  unfold checkRelevance
  cases hx : e.isRelevantToRegion b.getAllRelevantRegions <;>
  cases hy : e.isRecent t 90 <;>
  by_cases h3 : e.confidenceScore < (0.3 : ℚ) <;>
  simp [hx, hy, h3]

/-- Claim C2: for every event, business model and rule, with rawMagnitude =
(sum of the business's lever weights over the rule's affected levers) ×
(business sensitivity to the rule's sensitivity factor) × (event confidence),
the impact magnitude is HIGH iff rawMagnitude > 0.05, MEDIUM iff
0.02 < rawMagnitude ≤ 0.05 and LOW otherwise; both comparisons are strict,
so exactly 0.05 classifies as MEDIUM and exactly 0.02 as LOW. -/
theorem impactMagnitude_bucketing (e : Event) (b : BusinessModel) (rule : CausalRule) :
    (calculateImpactMagnitude e b rule.affectedDrivers rule.sensitivityFactor =
        ImpactMagnitude.HIGH ↔ (0.05 : ℚ) < spec_rawMagnitude e b rule) ∧
    (calculateImpactMagnitude e b rule.affectedDrivers rule.sensitivityFactor =
        ImpactMagnitude.MEDIUM ↔
      ((0.02 : ℚ) < spec_rawMagnitude e b rule ∧ spec_rawMagnitude e b rule ≤ 0.05)) ∧
    (calculateImpactMagnitude e b rule.affectedDrivers rule.sensitivityFactor =
        ImpactMagnitude.LOW ↔ spec_rawMagnitude e b rule ≤ 0.02) := by
  have hs : calculateImpactMagnitude e b rule.affectedDrivers rule.sensitivityFactor =
      (if spec_rawMagnitude e b rule > (0.05 : ℚ) then ImpactMagnitude.HIGH
       else if spec_rawMagnitude e b rule > (0.02 : ℚ) then ImpactMagnitude.MEDIUM
       else ImpactMagnitude.LOW) := by
    simp only [calculateImpactMagnitude, spec_rawMagnitude, foldl_add_weight, zero_add]
  rw [hs]
  by_cases h1 : spec_rawMagnitude e b rule > (0.05 : ℚ) <;>
  by_cases h2 : spec_rawMagnitude e b rule > (0.02 : ℚ) <;>
  simp [h1, h2, not_lt] <;> linarith

/-- Claim C3: the relevance filter accepts exactly when the event region is
"GLOBAL" or lies in the union of operating and customer regions, the event
age (now − timestamp) is at most 90 days, and the event confidence is at
least 0.3; the checks run in that order (witnessed by which reason string is
produced), an event older than 90 days is never relevant, and one exactly
89 days old with the other checks passing is relevant.  The filter is a
total function by construction. -/
theorem relevance_filter_characterisation (e : Event) (b : BusinessModel) (t : ℚ) :
    ((checkRelevance e b t).1 = true ↔
      ((e.region = "GLOBAL" ∨ e.region ∈ b.operatingRegions ∨ e.region ∈ b.customerRegions) ∧
        t - e.timestamp ≤ 90 * msPerDay ∧ (0.3 : ℚ) ≤ e.confidenceScore)) ∧
    (¬ (e.region = "GLOBAL" ∨ e.region ∈ b.operatingRegions ∨ e.region ∈ b.customerRegions) →
      checkRelevance e b t =
        (false, "Event in " ++ e.region ++ " does not affect business operating in " ++
          String.intercalate ", " b.getAllRelevantRegions)) ∧
    ((e.region = "GLOBAL" ∨ e.region ∈ b.operatingRegions ∨ e.region ∈ b.customerRegions) →
      90 * msPerDay < t - e.timestamp →
      checkRelevance e b t =
        (false, "Event is " ++ toString (e.getAgeInDays t) ++
          " days old and likely no longer relevant")) ∧
    ((e.region = "GLOBAL" ∨ e.region ∈ b.operatingRegions ∨ e.region ∈ b.customerRegions) →
      t - e.timestamp ≤ 90 * msPerDay → e.confidenceScore < (0.3 : ℚ) →
      checkRelevance e b t =
        (false, "Event has very low confidence score and may not be reliable")) ∧
    (90 * msPerDay < t - e.timestamp → (checkRelevance e b t).1 = false) ∧
    (t - e.timestamp = 89 * msPerDay →
      (e.region = "GLOBAL" ∨ e.region ∈ b.operatingRegions ∨ e.region ∈ b.customerRegions) →
      (0.3 : ℚ) ≤ e.confidenceScore → (checkRelevance e b t).1 = true) := by
  have hgeo := isRelevantToRegion_iff e b
  have hgf : ¬ (e.region = "GLOBAL" ∨ e.region ∈ b.operatingRegions ∨
      e.region ∈ b.customerRegions) →
      e.isRelevantToRegion b.getAllRelevantRegions = false := by
    intro h
    cases hx : e.isRelevantToRegion b.getAllRelevantRegions
    · rfl
    · exact absurd (hgeo.mp hx) h
  have hof : 90 * msPerDay < t - e.timestamp → e.isRecent t 90 = false := by
    intro hOld
    cases hb : e.isRecent t 90
    · rfl
    · exact absurd ((isRecent_iff e t).mp hb) (not_le.mpr hOld)
  refine ⟨?_, ?_, ?_, ?_, ?_, ?_⟩
  · rw [checkRelevance_fst_eq]
    simp [Bool.and_eq_true, Bool.not_eq_true', decide_eq_false_iff_not, not_lt,
      hgeo, isRecent_iff, and_assoc]
  · intro h
    simp [checkRelevance, hgf h]
  · intro hGeo hOld
    simp [checkRelevance, hgeo.mpr hGeo, hof hOld]
  · intro hGeo hRec hConf
    simp [checkRelevance, hgeo.mpr hGeo, (isRecent_iff e t).mpr hRec, hConf]
  · intro hOld
    rw [checkRelevance_fst_eq]
    simp [hof hOld]
  · intro hEq hGeo hConf
    rw [checkRelevance_fst_eq]
    have hy : e.isRecent t 90 = true :=
      (isRecent_iff e t).mpr (by rw [hEq]; norm_num [msPerDay])
    simp [hgeo.mpr hGeo, hy, decide_eq_false_iff_not, not_lt]
    exact hConf

/-- Instantiation of the relevance-filter characterisation: `exEvent` is 91
days stale at clock `91 * msPerDay`, and the filter indeed rejects it. -/
theorem relevance_filter_characterisation_witness :
    (90 * msPerDay < 91 * msPerDay - exEvent.timestamp) ∧
    (checkRelevance exEvent exBusiness (91 * msPerDay)).1 = false :=
  ⟨by norm_num [msPerDay, exEvent],
    (relevance_filter_characterisation exEvent exBusiness (91 * msPerDay)).2.2.2.2.1
      (by norm_num [msPerDay, exEvent])⟩

theorem calculateConfidence_bounds (e : Event) (cp : List CausalStep) (b : BusinessModel)
    (sf : SensitivityFactor) (n : Nat) :
    0 ≤ calculateConfidence e cp b sf n ∧ calculateConfidence e cp b sf n ≤ 1 := by
  rw [calculateConfidence_eq]
  exact clamp01_bounds _

theorem mapEventToBusiness_isSome (e : Event) (b : BusinessModel) (t : ℚ) :
    ∃ m, mapEventToBusiness e b t = some m := by
  by_cases h : (checkRelevance e b t).1 = false
  all_goals simp only [mapEventToBusiness, h, eq_self_iff_true, ite_true, ite_false]
  all_goals exact ⟨_, rfl⟩

theorem mapEventToBusiness_eq_some_getD (e : Event) (b : BusinessModel) (t : ℚ) :
    mapEventToBusiness e b t = some ((mapEventToBusiness e b t).getD default) := by
  obtain ⟨m, hm⟩ := mapEventToBusiness_isSome e b t
  rw [hm]
  rfl

theorem mapEventToBusiness_isRelevant_eq (e : Event) (b : BusinessModel) (t : ℚ)
    (m : CausalMapping) (hm : mapEventToBusiness e b t = some m) :
    m.isRelevant = (checkRelevance e b t).1 := by
  by_cases h : (checkRelevance e b t).1 = false
  · simp only [mapEventToBusiness, h, eq_self_iff_true, ite_true] at hm
    injection hm with h2
    subst h2
    exact h.symm
  · simp only [mapEventToBusiness, h, ite_false] at hm
    injection hm with h2
    subst h2
    cases hb : (checkRelevance e b t).1
    · exact absurd hb h
    · rfl

/-- Claim C1: for every mapping produced by `mapEventToBusiness`, the
confidence score lies in [0,1], and when the pair passed the relevance
filter the score equals eventConfidence × (product of causal-step
confidences) × (1.0 for a high-confidence category, else 0.9) ×
0.95^(number of attached assumptions) × (1.1 when the business sensitivity
to the rule's factor exceeds 0.7, else 1.0), clamped into [0,1]. -/
theorem confidence_aggregation (e : Event) (b : BusinessModel) (t : ℚ) (m : CausalMapping)
    (hm : mapEventToBusiness e b t = some m) :
    (0 ≤ m.confidenceScore ∧ m.confidenceScore ≤ 1) ∧
    (m.isRelevant = true →
      m.confidenceScore =
        max 0 (min 1 (e.confidenceScore *
          (m.causalPath.map (fun s => s.confidence)).prod *
          (if isHighConfidenceRule e.eventType then (1 : ℚ) else 0.9) *
          (0.95 : ℚ) ^ m.assumptions.length *
          (if b.getSensitivity (getCausalRule e.eventType).sensitivityFactor > (0.7 : ℚ)
            then (1.1 : ℚ) else 1)))) := by
  by_cases hrel : (checkRelevance e b t).1 = false
  · simp only [mapEventToBusiness, hrel, eq_self_iff_true, ite_true] at hm
    injection hm with h
    subst h
    exact ⟨⟨le_refl 0, by norm_num⟩, fun hc => Bool.noConfusion hc⟩
  · simp only [mapEventToBusiness, hrel, ite_false] at hm
    injection hm with h
    subst h
    exact ⟨calculateConfidence_bounds e _ b _ _, fun _ => calculateConfidence_eq e _ b _ _⟩

/-- Instantiation of the confidence-aggregation theorem at `exEvent`,
`exBusiness`, clock 0, whose mapping is `exMapping`. -/
theorem confidence_aggregation_witness :
    (0 ≤ exMapping.confidenceScore ∧ exMapping.confidenceScore ≤ 1) ∧
    (exMapping.isRelevant = true →
      exMapping.confidenceScore =
        max 0 (min 1 (exEvent.confidenceScore *
          (exMapping.causalPath.map (fun s => s.confidence)).prod *
          (if isHighConfidenceRule exEvent.eventType then (1 : ℚ) else 0.9) *
          (0.95 : ℚ) ^ exMapping.assumptions.length *
          (if exBusiness.getSensitivity
              (getCausalRule exEvent.eventType).sensitivityFactor > (0.7 : ℚ)
            then (1.1 : ℚ) else 1)))) :=
  confidence_aggregation exEvent exBusiness 0 exMapping
    (mapEventToBusiness_eq_some_getD exEvent exBusiness 0)

/-- Claim C4: whenever the relevance filter rejects an (event, business)
pair, `mapEventToBusiness` still returns a present mapping in the canonical
null shape — NEUTRAL direction, LOW magnitude, SHORT horizon, empty causal
path and assumptions, confidence 0, isRelevant false, and the filter's
reason as both rationale and relevance reason.  The embedding is a total
function, so no exception can propagate on well-formed input. -/
theorem nullMapping_on_irrelevant (e : Event) (b : BusinessModel) (t : ℚ)
    (h : (checkRelevance e b t).1 = false) :
    mapEventToBusiness e b t = some
      { event := e
        businessModel := b
        affectedDrivers := []
        impactDirection := .NEUTRAL
        impactMagnitude := .LOW
        timeHorizon := .SHORT
        causalPath := []
        assumptions := []
        confidenceScore := 0
        confidenceRationale := (checkRelevance e b t).2
        isRelevant := false
        relevanceReason := (checkRelevance e b t).2 } := by
  simp only [mapEventToBusiness, h, if_true]

/-- Instantiation of the null-mapping theorem: `exFarEvent` (region EU) is
rejected for `exBusiness` (US only) and the canonical null mapping comes
back. -/
theorem nullMapping_on_irrelevant_witness :
    (checkRelevance exFarEvent exBusiness 0).1 = false ∧
    mapEventToBusiness exFarEvent exBusiness 0 = some
      { event := exFarEvent
        businessModel := exBusiness
        affectedDrivers := []
        impactDirection := .NEUTRAL
        impactMagnitude := .LOW
        timeHorizon := .SHORT
        causalPath := []
        assumptions := []
        confidenceScore := 0
        confidenceRationale := (checkRelevance exFarEvent exBusiness 0).2
        isRelevant := false
        relevanceReason := (checkRelevance exFarEvent exBusiness 0).2 } := by
  have hx : exFarEvent.isRelevantToRegion exBusiness.getAllRelevantRegions = false := by
    cases hb : exFarEvent.isRelevantToRegion exBusiness.getAllRelevantRegions
    · rfl
    · have hmem := (isRelevantToRegion_iff exFarEvent exBusiness).mp hb
      simp [exFarEvent, exBusiness] at hmem
  have hrel : (checkRelevance exFarEvent exBusiness 0).1 = false := by
    simp [checkRelevance_fst_eq, hx]
  exact ⟨hrel, nullMapping_on_irrelevant exFarEvent exBusiness 0 hrel⟩

theorem pairwise_strict_of_sorted_of_ne {l : List CausalMapping}
    (hs : List.Pairwise byPriority l)
    (hne : List.Pairwise (fun a c => priorityScore a ≠ priorityScore c) l) :
    List.Pairwise (fun a c => priorityScore c < priorityScore a) l := by
  induction l with
  | nil => exact List.Pairwise.nil
  | cons x xs ih =>
    rcases List.pairwise_cons.mp hs with ⟨hx, hs2⟩
    rcases List.pairwise_cons.mp hne with ⟨hnx, hne2⟩
    exact List.pairwise_cons.mpr
      ⟨fun c hc => lt_of_le_of_ne (hx c hc) ((hnx c hc).symm), ih hs2 hne2⟩

/-- Claim C5: the batch mapper returns exactly the relevant mappings (as a
permutation of the filtered per-event results, non-relevant ones discarded),
sorted descending by confidenceScore × magnitudeWeight with weights
HIGH = 3, MEDIUM = 2, LOW = 1; when the priority products are pairwise
distinct the output is strictly descending. -/
theorem batch_returns_sorted_relevant (events : List Event) (b : BusinessModel) (t : ℚ) :
    (batchMapEventsToBusiness events b t).Perm
      ((events.filterMap (fun e => mapEventToBusiness e b t)).filter
        (fun m => m.isRelevant)) ∧
    List.Sorted byPriority (batchMapEventsToBusiness events b t) ∧
    ((batchMapEventsToBusiness events b t).Pairwise
        (fun a c => priorityScore a ≠ priorityScore c) →
      (batchMapEventsToBusiness events b t).Chain'
        (fun a c => priorityScore c < priorityScore a)) := by
  have hbody : batchMapEventsToBusiness events b t =
      List.insertionSort byPriority
        ((events.filterMap (fun e => mapEventToBusiness e b t)).filter
          (fun m => m.isRelevant)) := by
    simp only [batchMapEventsToBusiness]
    rw [batch_filterMap_eq]
  rw [hbody]
  refine ⟨List.perm_insertionSort byPriority _, List.sorted_insertionSort byPriority _, ?_⟩
  intro hne
  exact (pairwise_strict_of_sorted_of_ne (List.sorted_insertionSort byPriority _) hne).chain'

/-- Instantiation of the batch theorem at the empty batch: the hypotheses
and conclusions hold for the (empty) output list. -/
theorem batch_returns_sorted_relevant_witness :
    ((batchMapEventsToBusiness [] exBusiness 0).Pairwise
      (fun a c => priorityScore a ≠ priorityScore c)) ∧
    ((batchMapEventsToBusiness [] exBusiness 0).Chain'
      (fun a c => priorityScore c < priorityScore a)) := by
  have hp : (batchMapEventsToBusiness [] exBusiness 0).Pairwise
      (fun a c => priorityScore a ≠ priorityScore c) := by
    simp [batchMapEventsToBusiness, List.insertionSort]
  exact ⟨hp, (batch_returns_sorted_relevant [] exBusiness 0).2.2 hp⟩

/-- Claim C6: the impact direction is INCREASE whenever the lower-cased
summary contains one of "increase", "rise", "growth", "up"; otherwise
DECREASE whenever it contains one of "decrease", "decline", "fall", "down";
otherwise the rule's default direction.  Increase tokens are tested first,
so a summary containing both classes yields INCREASE. -/
theorem direction_keyword_scan (event : Event) (rule : CausalRule) :
    ((∃ tok ∈ increaseTokens, containsTok (lowerAscii event.summary) tok) →
      determineImpactDirection event rule = ImpactDirection.INCREASE) ∧
    (¬ (∃ tok ∈ increaseTokens, containsTok (lowerAscii event.summary) tok) →
      (∃ tok ∈ decreaseTokens, containsTok (lowerAscii event.summary) tok) →
      determineImpactDirection event rule = ImpactDirection.DECREASE) ∧
    (¬ (∃ tok ∈ increaseTokens, containsTok (lowerAscii event.summary) tok) →
      ¬ (∃ tok ∈ decreaseTokens, containsTok (lowerAscii event.summary) tok) →
      determineImpactDirection event rule = rule.defaultDirection) := by
  have hIncIff : (includesSub (lowerAscii event.summary) "increase" ||
      includesSub (lowerAscii event.summary) "rise" ||
      includesSub (lowerAscii event.summary) "growth" ||
      includesSub (lowerAscii event.summary) "up") = true ↔
      (∃ tok ∈ increaseTokens, containsTok (lowerAscii event.summary) tok) := by
    simp [increaseTokens, includesSub_iff, Bool.or_eq_true, or_assoc]
  have hDecIff : (includesSub (lowerAscii event.summary) "decrease" ||
      includesSub (lowerAscii event.summary) "decline" ||
      includesSub (lowerAscii event.summary) "fall" ||
      includesSub (lowerAscii event.summary) "down") = true ↔
      (∃ tok ∈ decreaseTokens, containsTok (lowerAscii event.summary) tok) := by
    simp [decreaseTokens, includesSub_iff, Bool.or_eq_true, or_assoc]
  refine ⟨?_, ?_, ?_⟩
  · intro h
    have hb := hIncIff.mpr h
    simp only [determineImpactDirection, hb, eq_self_iff_true, ite_true]
  · intro hno hdec
    have hbInc : (includesSub (lowerAscii event.summary) "increase" ||
        includesSub (lowerAscii event.summary) "rise" ||
        includesSub (lowerAscii event.summary) "growth" ||
        includesSub (lowerAscii event.summary) "up") = false := by
      cases hb : (includesSub (lowerAscii event.summary) "increase" ||
          includesSub (lowerAscii event.summary) "rise" ||
          includesSub (lowerAscii event.summary) "growth" ||
          includesSub (lowerAscii event.summary) "up")
      · rfl
      · exact absurd (hIncIff.mp hb) hno
    have hbDec := hDecIff.mpr hdec
    simp only [determineImpactDirection, hbInc, hbDec, Bool.false_eq_true, ite_false,
      eq_self_iff_true, ite_true]
  · intro hno hnd
    have hbInc : (includesSub (lowerAscii event.summary) "increase" ||
        includesSub (lowerAscii event.summary) "rise" ||
        includesSub (lowerAscii event.summary) "growth" ||
        includesSub (lowerAscii event.summary) "up") = false := by
      cases hb : (includesSub (lowerAscii event.summary) "increase" ||
          includesSub (lowerAscii event.summary) "rise" ||
          includesSub (lowerAscii event.summary) "growth" ||
          includesSub (lowerAscii event.summary) "up")
      · rfl
      · exact absurd (hIncIff.mp hb) hno
    have hbDec : (includesSub (lowerAscii event.summary) "decrease" ||
        includesSub (lowerAscii event.summary) "decline" ||
        includesSub (lowerAscii event.summary) "fall" ||
        includesSub (lowerAscii event.summary) "down") = false := by
      cases hb : (includesSub (lowerAscii event.summary) "decrease" ||
          includesSub (lowerAscii event.summary) "decline" ||
          includesSub (lowerAscii event.summary) "fall" ||
          includesSub (lowerAscii event.summary) "down")
      · rfl
      · exact absurd (hDecIff.mp hb) hnd
    simp only [determineImpactDirection, hbInc, hbDec, Bool.false_eq_true, ite_false]

/-- Instantiation of the direction scan: the summary of `exEvent` contains
"increase", so the direction is INCREASE. -/
theorem direction_keyword_scan_witness :
    (∃ tok ∈ increaseTokens, containsTok (lowerAscii exEvent.summary) tok) ∧
    determineImpactDirection exEvent (getCausalRule exEvent.eventType) =
      ImpactDirection.INCREASE := by
  have h : ∃ tok ∈ increaseTokens, containsTok (lowerAscii exEvent.summary) tok :=
    ⟨"increase", by simp [increaseTokens],
      ⟨("tech wages ").data, [], by decide⟩⟩
  exact ⟨h, (direction_keyword_scan exEvent (getCausalRule exEvent.eventType)).1 h⟩

/-- Claim C7 counterexample: `mapEventToBusiness` reads the ambient clock
(`Date.now()` inside `Event.isRecent` / `getAgeInDays`), so two calls with
identical event and business model can differ: at clock 0 the epoch-stamped
`exEvent` is relevant, at clock 91 days it is stale and mapped to the null
shape.  Hence the output does not depend on the two arguments alone. -/
theorem mapEvent_clock_counterexample :
    mapEventToBusiness exEvent exBusiness 0 ≠
      mapEventToBusiness exEvent exBusiness (91 * msPerDay) := by
  have hg : exEvent.isRelevantToRegion exBusiness.getAllRelevantRegions = true :=
    (isRelevantToRegion_iff exEvent exBusiness).mpr (by simp [exEvent, exBusiness])
  have hr1 : exEvent.isRecent 0 90 = true :=
    (isRecent_iff exEvent 0).mpr (by norm_num [exEvent, msPerDay])
  have h1 : (checkRelevance exEvent exBusiness 0).1 = true := by
    rw [checkRelevance_fst_eq, hg, hr1]
    simp [decide_eq_false_iff_not, not_lt]
    norm_num [exEvent]
  have hr2 : exEvent.isRecent (91 * msPerDay) 90 = false := by
    cases hb : exEvent.isRecent (91 * msPerDay) 90
    · rfl
    · have := (isRecent_iff exEvent (91 * msPerDay)).mp hb
      norm_num [exEvent, msPerDay] at this
  have h2 : (checkRelevance exEvent exBusiness (91 * msPerDay)).1 = false := by
    rw [checkRelevance_fst_eq, hr2]
    simp
  intro hEq
  obtain ⟨m, hm⟩ := mapEventToBusiness_isSome exEvent exBusiness 0
  have hm2 : mapEventToBusiness exEvent exBusiness (91 * msPerDay) = some m := by
    rw [← hEq]
    exact hm
  have r1 := mapEventToBusiness_isRelevant_eq exEvent exBusiness 0 m hm
  have r2 := mapEventToBusiness_isRelevant_eq exEvent exBusiness (91 * msPerDay) m hm2
  rw [h1] at r1
  rw [h2] at r2
  rw [r1] at r2
  exact Bool.noConfusion r2

/-- Claim C7 (amended): `mapEventToBusiness` is deterministic in (event,
business model, clock reading): it depends on the clock only through the
recency verdict and the floored age-in-days, so any two clock readings
agreeing on those — in particular equal readings — yield identical output.
Memoising by (eventId, businessModelId) is sound only at a fixed clock
reading. -/
theorem mapEvent_deterministic_given_clock (e : Event) (b : BusinessModel) (t₁ t₂ : ℚ)
    (hrec : e.isRecent t₁ 90 = e.isRecent t₂ 90)
    (hage : e.getAgeInDays t₁ = e.getAgeInDays t₂) :
    mapEventToBusiness e b t₁ = mapEventToBusiness e b t₂ := by
  have hcr := checkRelevance_clock_congr e b t₁ t₂ hrec hage
  simp only [mapEventToBusiness, hcr]

/-- Instantiation of clock-stable determinism: clocks 0 and 1000 (one second
later) agree on recency and floored age for `exEvent`, so the mappings
coincide. -/
theorem mapEvent_deterministic_given_clock_witness :
    (exEvent.isRecent 0 90 = exEvent.isRecent 1000 90) ∧
    (exEvent.getAgeInDays 0 = exEvent.getAgeInDays 1000) ∧
    mapEventToBusiness exEvent exBusiness 0 =
      mapEventToBusiness exEvent exBusiness 1000 := by
  have ha : exEvent.isRecent 0 90 = true :=
    (isRecent_iff exEvent 0).mpr (by norm_num [exEvent, msPerDay])
  have hb : exEvent.isRecent 1000 90 = true :=
    (isRecent_iff exEvent 1000).mpr (by norm_num [exEvent, msPerDay])
  have hrec : exEvent.isRecent 0 90 = exEvent.isRecent 1000 90 := by rw [ha, hb]
  have hage : exEvent.getAgeInDays 0 = exEvent.getAgeInDays 1000 := by
    show (⌊exEvent.ageRawDays 0⌋ : ℤ) = ⌊exEvent.ageRawDays 1000⌋
    norm_num [Event.ageRawDays, exEvent, msPerDay]
  exact ⟨hrec, hage, mapEvent_deterministic_given_clock exEvent exBusiness 0 1000 hrec hage⟩

/-- Claim C8 counterexample: a factor configured with sensitivity exactly 0
is present in the sensitivity map, yet `getSensitivity` returns the default
0.5 instead of the configured 0 — the JS `found?.sensitivity || 0.5`
treats 0 as falsy. -/
theorem getSensitivity_zero_counterexample :
    zeroSensBusiness.sensitivities.find?
        (fun x => x.factor = SensitivityFactor.LABOR) =
      some ⟨SensitivityFactor.LABOR, 0⟩ ∧
    zeroSensBusiness.getSensitivity SensitivityFactor.LABOR = 0.5 ∧
    (0.5 : ℚ) ≠ 0 := by
  refine ⟨?_, ?_, by norm_num⟩
  · simp [zeroSensBusiness]
  · simp [BusinessModel.getSensitivity, zeroSensBusiness]

/-- Claim C8 (amended): `getSensitivity` returns the configured value when
the factor is present with a nonzero sensitivity, and returns the default
0.5 both when the factor is unset and when it is configured as exactly 0
(swallowed by the falsy-coalescing `|| 0.5`). -/
theorem getSensitivity_characterisation (b : BusinessModel) (f : SensitivityFactor) :
    (∀ s, b.sensitivities.find? (fun x => x.factor = f) = some s →
      s.sensitivity ≠ 0 → b.getSensitivity f = s.sensitivity) ∧
    (b.sensitivities.find? (fun x => x.factor = f) = none →
      b.getSensitivity f = 0.5) ∧
    (∀ s, b.sensitivities.find? (fun x => x.factor = f) = some s →
      s.sensitivity = 0 → b.getSensitivity f = 0.5) := by
  refine ⟨?_, ?_, ?_⟩
  · intro s hs hne
    simp [BusinessModel.getSensitivity, hs, hne]
  · intro hn
    simp [BusinessModel.getSensitivity, hn]
  · intro s hs h0
    simp [BusinessModel.getSensitivity, hs, h0]

/-- Instantiation of the amended sensitivity lookup: `exBusiness` configures
LABOR at 0.8 (nonzero) and gets exactly 0.8 back. -/
theorem getSensitivity_characterisation_witness :
    (exBusiness.sensitivities.find? (fun x => x.factor = SensitivityFactor.LABOR) =
      some ⟨SensitivityFactor.LABOR, 0.8⟩) ∧
    ((0.8 : ℚ) ≠ 0) ∧
    exBusiness.getSensitivity SensitivityFactor.LABOR = 0.8 := by
  have hf : exBusiness.sensitivities.find?
      (fun x => x.factor = SensitivityFactor.LABOR) =
      some ⟨SensitivityFactor.LABOR, 0.8⟩ := by
    simp [exBusiness]
  have hn : (0.8 : ℚ) ≠ 0 := by norm_num
  exact ⟨hf, hn,
    (getSensitivity_characterisation exBusiness SensitivityFactor.LABOR).1
      ⟨SensitivityFactor.LABOR, 0.8⟩ hf hn⟩

/-- Claim C9 counterexample: for an empty causal path the mapper-layer
aggregator applies NO 0.5 penalty: with event confidence 0.8, a
high-confidence category, zero assumptions and default sensitivity it
returns 0.8, not the 0.8 × 0.5 = 0.4 the claim predicts. -/
theorem emptyPath_mapper_counterexample :
    calculateConfidence exEvent [] plainBusiness SensitivityFactor.LABOR 0 = 0.8 ∧
    ¬ calculateConfidence exEvent [] plainBusiness SensitivityFactor.LABOR 0 =
        exEvent.confidenceScore * 0.5 := by
  have hsens : plainBusiness.getSensitivity SensitivityFactor.LABOR = 0.5 := by
    simp [BusinessModel.getSensitivity, plainBusiness]
  have hhc : isHighConfidenceRule exEvent.eventType = true := by
    simp [isHighConfidenceRule, exEvent]
  have hval : calculateConfidence exEvent [] plainBusiness SensitivityFactor.LABOR 0 = 0.8 := by
    rw [calculateConfidence_eq, hsens, hhc]
    norm_num [exEvent, min_def, max_def]
  refine ⟨hval, ?_⟩
  rw [hval]
  norm_num [exEvent]

/-- Claim C9 (amended): in the mapper layer an empty causal path contributes
the empty product 1.0 and no extra penalty — the aggregate is
clamp(eventConfidence × ruleQuality × 0.95^assumptions × sensitivityBonus);
the fixed once-applied 0.5 empty-path penalty belongs to the Insight layer,
whose `calculateOverallConfidence` returns eventConfidence × 0.5 there. -/
theorem emptyPath_two_layers (e : Event) (b : BusinessModel) (sf : SensitivityFactor)
    (n : Nat) (ec : ℚ) :
    calculateConfidence e [] b sf n =
      max 0 (min 1 (e.confidenceScore *
        (if isHighConfidenceRule e.eventType then (1 : ℚ) else 0.9) *
        (0.95 : ℚ) ^ n *
        (if b.getSensitivity sf > (0.7 : ℚ) then (1.1 : ℚ) else 1))) ∧
    Insight.calculateOverallConfidence ec [] = ec * 0.5 := by
  constructor
  · rw [calculateConfidence_eq]
    simp
  · simp [Insight.calculateOverallConfidence]

/-- Instantiation of the two-layer empty-path behaviour at concrete values. -/
theorem emptyPath_two_layers_witness :
    Insight.calculateOverallConfidence 0.8 [] = 0.8 * 0.5 :=
  (emptyPath_two_layers exEvent plainBusiness SensitivityFactor.LABOR 0 0.8).2

/-- Claim C10: for each of the nine event categories the catalog rule's
`getCausalPath`, applied to any summary and context strings, returns exactly
3 steps with ordinals 1, 2, 3 in order; every authored step confidence lies
in [0.45, 0.95] and hence in (0,1]; the first step's mechanism is the event
summary verbatim; and the confidence list is independent of the supplied
texts (the builder supplies text only).  `getCausalRule` is the identity
lookup into the catalog. -/
theorem rule_catalog_paths (et : EventType) (s c s2 c2 : String) :
    ((CAUSAL_RULES et).getCausalPath s c).length = 3 ∧
    ((CAUSAL_RULES et).getCausalPath s c).map (fun st => st.step) = [1, 2, 3] ∧
    (∀ st ∈ (CAUSAL_RULES et).getCausalPath s c,
      (0.45 : ℚ) ≤ st.confidence ∧ st.confidence ≤ 0.95 ∧
        0 < st.confidence ∧ st.confidence ≤ 1) ∧
    (((CAUSAL_RULES et).getCausalPath s c).head?.map (fun st => st.mechanism) = some s) ∧
    (((CAUSAL_RULES et).getCausalPath s c).map (fun st => st.confidence) =
      ((CAUSAL_RULES et).getCausalPath s2 c2).map (fun st => st.confidence)) ∧
    getCausalRule et = CAUSAL_RULES et := by
  cases et <;>
  · refine ⟨rfl, rfl, ?_, rfl, rfl, rfl⟩
    intro st hst
    simp [CAUSAL_RULES] at hst
    rcases hst with rfl | rfl | rfl <;> norm_num

/-- Instantiation of the catalog-path theorem for the labor-market rule at
concrete texts. -/
theorem rule_catalog_paths_witness :
    ((CAUSAL_RULES EventType.LABOR_MARKET).getCausalPath "wage event" "ctx").length = 3 ∧
    (((CAUSAL_RULES EventType.LABOR_MARKET).getCausalPath "wage event" "ctx").head?.map
      (fun st => st.mechanism) = some "wage event") :=
  ⟨(rule_catalog_paths EventType.LABOR_MARKET "wage event" "ctx" "a" "b").1,
    (rule_catalog_paths EventType.LABOR_MARKET "wage event" "ctx" "a" "b").2.2.2.1⟩

/-- Instantiation of magnitude bucketing: for `exFarEvent` against
`plainBusiness` under the CURRENCY rule the raw magnitude is
2 × 0.5 × 0.9 = 0.9 > 0.05, so the bucket is HIGH. -/
theorem impactMagnitude_bucketing_witness :
    calculateImpactMagnitude exFarEvent plainBusiness
      (getCausalRule EventType.CURRENCY).affectedDrivers
      (getCausalRule EventType.CURRENCY).sensitivityFactor = ImpactMagnitude.HIGH := by
  apply (impactMagnitude_bucketing exFarEvent plainBusiness
    (getCausalRule EventType.CURRENCY)).1.mpr
  have hw : spec_rawMagnitude exFarEvent plainBusiness (getCausalRule EventType.CURRENCY) =
      (9 : ℚ) / 10 := by
    simp [spec_rawMagnitude, getCausalRule, CAUSAL_RULES, BusinessModel.getDriverWeight,
      BusinessModel.getSensitivity, plainBusiness, exFarEvent]
    norm_num
  rw [hw]
  norm_num
